import Mathlib

/-!
Shallow embedding of the todoable client library (src/todoable/lib.py,
src/todoable/models.py, src/todoable/api.py) and proofs about the claims
of its specification.

Modelling conventions:
- JSON values that appear in server payloads are modelled by `JVal`
  (null, string, or array of objects); a decoded JSON object is an
  association list `JDict`. Python dict lookup `d[k]` raising `KeyError`
  is `dGet`; `d.get(k)` is `AList.find?`; `d.update(...)` is
  `AList.update` (replace in place, else append, as for Python dicts).
- Python exceptions are the type `PyErr`; the repository exception
  classes of lib.py are its taxonomy constructors, while `keyError`,
  `typeError`, `valueError` and `externalError` stand for Python or
  third-party exceptions that are not part of the taxonomy.
- `datetime` values are `PyDateTime`: a naive clock value plus an
  optional timezone; `replace(tzinfo=None)` is `replaceTzNone`.
  `dateutil.parser.parse` is an external library and enters as an
  uninterpreted parameter `parse : String → PyDateTime`.
- The HTTP transport (the `requests` library) enters as a
  `TransportOutcome` parameter: a response, a `requests.ConnectionError`
  (the only exception class caught by `make_request`), or some other
  exception raised by the transport, such as `requests.ReadTimeout`,
  which is not a subclass of `requests.ConnectionError`.
- Mutation of the client instance is explicit state passing of
  `ClientState`; the class-level shared header dict is explicit state
  passing of the header list. Raised exceptions return the state at the
  moment of the raise, so that claims about fields being left unchanged
  are expressible.
-/

namespace Todoable

/-- A decoded JSON value as used in todoable payloads: null, a string, or
an array of JSON objects (the only shapes the code consumes). -/
inductive JVal : Type where
  | vNull : JVal
  | vStr : String → JVal
  | vArr : List (List (String × JVal)) → JVal

/-- A decoded JSON object: an association list from keys to values. -/
abbrev JDict := List (String × JVal)

/-- Python truthiness of a `JVal`: `None`, the empty string and the empty
list are falsy, everything else is truthy. -/
def JVal.truthy : JVal → Bool
  | .vNull => false
  | .vStr s => !s.isEmpty
  | .vArr l => !l.isEmpty

/-- Python `str(...)` of a `JVal`, as used by string interpolation. -/
def JVal.pyStr : JVal → String
  | .vNull => "None"
  | .vStr s => s
  | .vArr _ => "[...]"

namespace AList

/-- Python `d.get(k)`: first value stored under `k`, if any. -/
def find? {β : Type} : List (String × β) → String → Option β
  | [], _ => none
  | (k0, v) :: rest, k => if k0 == k then some v else find? rest k

/-- Python `d.update({k: v})` on a dict: replace the value stored under
`k` in place when the key exists, otherwise append the new binding. -/
def update {β : Type} (d : List (String × β)) (k : String) (v : β) : List (String × β) :=
  if d.any (fun kv => kv.1 == k) then
    d.map (fun kv => if kv.1 == k then (kv.1, v) else kv)
  else
    d ++ [(k, v)]

end AList

/-- A naive-or-aware `datetime.datetime`: a naive clock reading plus an
optional timezone offset (`none` for a timezone-naive value). -/
structure PyDateTime : Type where
  naive : Int
  tz : Option Int
deriving DecidableEq, Repr

/-- Python `dt.replace(tzinfo=None)`: drop the timezone, keep the clock
fields exactly as parsed. -/
def PyDateTime.replaceTzNone (d : PyDateTime) : PyDateTime :=
  { d with tz := none }

/-- Python exceptions that the embedded code can raise. The first eight
constructors are the repository taxonomy of lib.py (all subclasses of
`ToDoableException`); `toDoableException` is the umbrella class itself,
raised directly for unrecognized status codes. `keyError`, `typeError`
and `valueError` are builtin Python exceptions, and `externalError` is an
exception raised by the HTTP transport that `make_request` does not
catch; none of those four belong to the taxonomy. -/
inductive PyErr : Type where
  | toDoableException : String → PyErr
  | timeoutException : String → PyErr
  | authenticationError : String → PyErr
  | malformedResponseException : String → JDict → PyErr
  | internalServerException : String → PyErr
  | invalidRequestException : String → PyErr
  | rateLimitException : String → PyErr
  | notFoundException : String → PyErr
  | keyError : String → PyErr
  | typeError : String → PyErr
  | valueError : String → PyErr
  | externalError : String → PyErr

/-- The failure kinds of the spec taxonomy (section 4.1), plus the
non-taxonomy outcomes a Python program can exhibit. -/
inductive ErrKind : Type where
  | generic | timeout | authentication | malformed
  | internalServer | invalidRequest | rateLimited | notFound
  | pyKeyError | pyTypeError | pyValueError | external
deriving DecidableEq, Repr

/-- The kind of an exception. -/
def PyErr.kind : PyErr → ErrKind
  | .toDoableException _ => .generic
  | .timeoutException _ => .timeout
  | .authenticationError _ => .authentication
  | .malformedResponseException _ _ => .malformed
  | .internalServerException _ => .internalServer
  | .invalidRequestException _ => .invalidRequest
  | .rateLimitException _ => .rateLimited
  | .notFoundException _ => .notFound
  | .keyError _ => .pyKeyError
  | .typeError _ => .pyTypeError
  | .valueError _ => .pyValueError
  | .externalError _ => .external

/-- Whether an exception belongs to the taxonomy of section 4.1: a
subclass of `ToDoableException`. -/
def PyErr.inTaxonomy : PyErr → Bool
  | .keyError _ => false
  | .typeError _ => false
  | .valueError _ => false
  | .externalError _ => false
  | _ => true

/-- Python `d[k]`: the stored value, or a `KeyError` when absent. -/
def dGet (d : JDict) (k : String) : Except PyErr JVal :=
  match AList.find? d k with
  | some v => Except.ok v
  | none => Except.error (PyErr.keyError k)

/-! ## models.py -/

/-- The `ListItem` record of models.py: the four attributes set by
`ListItem.__init__`, with `none` for attributes defaulted to Python
`None`. `finished_at` is `None` or a timezone-naive datetime. -/
structure ListItem : Type where
  name : JVal
  id : Option JVal
  src : Option JVal
  finished_at : Option PyDateTime

/-- The `List` record of models.py (named `TodoList` here because `List`
is taken by Lean): the four attributes set by `List.__init__`. `items`
is `none` when the items have not been loaded. -/
structure TodoList : Type where
  name : JVal
  id : Option JVal
  items : Option (List ListItem)
  src : Option JVal

/-- The `handle_malformed_response` decorator of lib.py: a `KeyError`
escaping the wrapped method is turned into a `MalformedResponseException`
naming the class being initialized and the offending payload; every
other outcome passes through unchanged. -/
def handle_malformed_response {α : Type} (clsName : String) (payload : JDict) :
    Except PyErr α → Except PyErr α
  | Except.error (PyErr.keyError _) =>
      Except.error (PyErr.malformedResponseException clsName payload)
  | r => r

/-- Body of `ListItem.from_dict` before the decorator, following the
evaluation order of the source: the `finished_at` key is read first
(parsed and stripped of its timezone when truthy), then `name`, `id` and
`src` are read as the positional constructor arguments. A truthy
`finished_at` that is not a string makes `parser.parse` raise
`TypeError`. -/
def ListItem.from_dict_body (parse : String → PyDateTime) (d : JDict) :
    Except PyErr ListItem :=
  match dGet d "finished_at" with
  | Except.error e => Except.error e
  | Except.ok fv =>
    let fin : Except PyErr (Option PyDateTime) :=
      if fv.truthy then
        match fv with
        | JVal.vStr s => Except.ok (some ((parse s).replaceTzNone))
        | _ => Except.error (PyErr.typeError "parser.parse expects a string")
      else Except.ok none
    match fin with
    | Except.error e => Except.error e
    | Except.ok finished_at =>
      match dGet d "name" with
      | Except.error e => Except.error e
      | Except.ok name =>
        match dGet d "id" with
        | Except.error e => Except.error e
        | Except.ok idv =>
          match dGet d "src" with
          | Except.error e => Except.error e
          | Except.ok srcv =>
            Except.ok { name := name, id := some idv, src := some srcv,
                        finished_at := finished_at }

/-- `ListItem.from_dict` of models.py, decorator included. -/
def ListItem.from_dict (parse : String → PyDateTime) (d : JDict) :
    Except PyErr ListItem :=
  handle_malformed_response "ListItem" d (ListItem.from_dict_body parse d)

/-- The list comprehension `[ListItem.from_dict(i) for i in dicts]`:
elements are parsed left to right, the first exception propagates. -/
def parseItems (parse : String → PyDateTime) : List JDict → Except PyErr (List ListItem)
  | [] => Except.ok []
  | d :: rest =>
    match ListItem.from_dict parse d with
    | Except.error e => Except.error e
    | Except.ok item =>
      match parseItems parse rest with
      | Except.error e => Except.error e
      | Except.ok items => Except.ok (item :: items)

/-- Body of `List.from_dict` before the decorator, following the source:
`items` stays `None` unless `dict_.get('items')` is truthy, in which case
the value is iterated and each element parsed with `ListItem.from_dict`;
then `name`, `id` and `src` are read (`src` with `.get`, so optional). A
truthy non-array `items` value would make the comprehension iterate a
non-dict and raise a `TypeError`. -/
def TodoList.from_dict_body (parse : String → PyDateTime) (d : JDict) :
    Except PyErr TodoList :=
  let itemsE : Except PyErr (Option (List ListItem)) :=
    match AList.find? d "items" with
    | none => Except.ok none
    | some v =>
      if v.truthy then
        match v with
        | JVal.vArr ds =>
          match parseItems parse ds with
          | Except.error e => Except.error e
          | Except.ok items => Except.ok (some items)
        | _ => Except.error (PyErr.typeError "string indices must be integers")
      else Except.ok none
  match itemsE with
  | Except.error e => Except.error e
  | Except.ok items =>
    match dGet d "name" with
    | Except.error e => Except.error e
    | Except.ok name =>
      match dGet d "id" with
      | Except.error e => Except.error e
      | Except.ok idv =>
        Except.ok { name := name, id := some idv,
                    items := items, src := AList.find? d "src" }

/-- `List.from_dict` of models.py, decorator included. -/
def TodoList.from_dict (parse : String → PyDateTime) (d : JDict) :
    Except PyErr TodoList :=
  handle_malformed_response "List" d (TodoList.from_dict_body parse d)

/-! ## lib.py constants -/

/-- `BASE_URL` of lib.py. -/
def BASE_URL : String := "http://todoable.teachable.tech/api"

/-- `DEFAULT_HEADERS` of lib.py: the mutable dict shared at class level
by every `ToDoableClient` (api.py binds `HEADERS = DEFAULT_HEADERS`). -/
def DEFAULT_HEADERS : List (String × String) :=
  [("Accept", "application/json"), ("Content-Type", "application/json")]

/-! ## api.py -/

/-- A `requests.models.Response`: status code, raw body text, and the
decoded JSON body (`none` when `.json()` would raise a decode error). -/
structure HttpResponse : Type where
  status_code : Nat
  text : String
  jsonBody : Option JDict

/-- Python truthiness of an optional string attribute such as
`self._username` (`None` and the empty string are falsy). -/
def optStrTruthy : Option String → Bool
  | none => false
  | some s => !s.isEmpty

/-- The instance attributes set by `ToDoableClient.__init__`. The token
may be any value (`None` or a string in practice), the expiry a naive
datetime or `None`, the credentials strings or `None`. -/
structure ClientState : Type where
  token : JVal
  token_expiry : Option PyDateTime
  username : Option String
  password : Option String

/-- `ToDoableClient.__init__`: stores the four attributes and mutates
the class-level shared header dict in place with the Authorization
header interpolated from the token. The shared dict is threaded
explicitly: the function receives its current value and returns the
updated value alongside the new instance. -/
def ToDoableClient.init (shared : List (String × String)) (token : JVal)
    (token_expiry : Option PyDateTime) (username password : Option String) :
    ClientState × List (String × String) :=
  ({ token := token, token_expiry := token_expiry,
     username := username, password := password },
   AList.update shared "Authorization" ("Token token=" ++ token.pyStr))

/-- The URL `"%s/%s" % (cls.BASE_URL, 'authenticate')` built by
`get_token`. -/
def authenticate_url : String := BASE_URL ++ "/" ++ "authenticate"

/-- `resp.json()`: the decoded body, or the `ValueError` that
`requests` raises on undecodable bodies. -/
def respJson (resp : HttpResponse) : Except PyErr JDict :=
  match resp.jsonBody with
  | some body => Except.ok body
  | none => Except.error (PyErr.valueError "No JSON object could be decoded")

/-- `ToDoableClient.get_token`: a classmethod needing no instance state.
The outcome of the POST to `authenticate_url` is the parameter `resp`.
Status 401 raises `AuthenticationError`; otherwise the JSON body is
decoded, `token` is read, `expires_at` is read, parsed with
`dateutil.parser.parse` and stripped of its timezone, and the pair is
returned. A non-string `expires_at` would make the parser raise
`TypeError`. -/
def get_token (parse : String → PyDateTime) (resp : HttpResponse) :
    Except PyErr (JVal × PyDateTime) :=
  if resp.status_code = 401 then
    Except.error (PyErr.authenticationError "Unable to authenticate with given username/pw")
  else
    match respJson resp with
    | Except.error e => Except.error e
    | Except.ok body =>
      match dGet body "token" with
      | Except.error e => Except.error e
      | Except.ok token =>
        match dGet body "expires_at" with
        | Except.error e => Except.error e
        | Except.ok ea =>
          match ea with
          | JVal.vStr s => Except.ok (token, (parse s).replaceTzNone)
          | _ => Except.error (PyErr.typeError "parser.parse expects a string")

/-- `ToDoableClient.update_token`: raises `AuthenticationError` when the
stored credentials are not both truthy; otherwise performs the token
fetch and, only if it returns, overwrites `self._token` and
`self._token_expiry` with the fetched pair in a single tuple assignment.
The returned state is the state at the moment the call returns or the
exception propagates. -/
def update_token (parse : String → PyDateTime) (authResp : HttpResponse)
    (st : ClientState) : Except PyErr Unit × ClientState :=
  if !(optStrTruthy st.username && optStrTruthy st.password) then
    (Except.error (PyErr.authenticationError
      "Unable to update token without username and password"), st)
  else
    match get_token parse authResp with
    | Except.error e => (Except.error e, st)
    | Except.ok (t, expiry) =>
      (Except.ok (), { st with token := t, token_expiry := some expiry })

/-- The inner `_handle_error` of `make_request`: maps the status code of
a non-2xx response to the exception raised, following the branch order
of the source. -/
def handle_error (resp : HttpResponse) : PyErr :=
  let tail : String :=
    ", status code " ++ toString resp.status_code ++ " received, body: " ++ resp.text
  if resp.status_code = 401 then
    PyErr.authenticationError ("Error authenticating" ++ tail)
  else if resp.status_code = 404 then
    PyErr.notFoundException ("Object not found" ++ tail)
  else if resp.status_code = 400 ∨ resp.status_code = 422 then
    PyErr.invalidRequestException ("Malformed request made" ++ tail)
  else if resp.status_code = 429 then
    PyErr.rateLimitException ("Too many requests" ++ tail)
  else if 500 ≤ resp.status_code ∧ resp.status_code ≤ 599 then
    PyErr.internalServerException ("Internal Server exception raised" ++ tail)
  else
    PyErr.toDoableException ("Error reached while making request" ++ tail)

/-- The reauthentication guard on line 173 of api.py:
`not self._token or self._token_expiry and datetime.utcnow() >= self._token_expiry`.
`now` is the naive `datetime.utcnow()` clock value; stored expiries are
timezone-naive, so the datetime comparison compares the naive values. -/
def needs_reauth (st : ClientState) (now : Int) : Bool :=
  !st.token.truthy ||
    (match st.token_expiry with
     | none => false
     | some e => decide (now ≥ e.naive))

/-- The outcome of the transport call `func(url, ...)` inside
`make_request`: a response, a `requests.ConnectionError`, or any other
exception the transport can raise (for example `requests.ReadTimeout`
on an in-flight timeout, which is not a `requests.ConnectionError`). -/
inductive TransportOutcome : Type where
  | response : HttpResponse → TransportOutcome
  | connectionError : String → TransportOutcome
  | otherException : String → TransportOutcome

/-- Observable events of one `make_request` call, in order: a
reauthentication (`update_token` invoked) and the HTTP call being
issued to the transport. -/
inductive Event : Type where
  | reauth : Event
  | httpCall : Event
deriving DecidableEq, Repr

/-- Lines 176-183 of api.py: issue the HTTP call. A
`requests.ConnectionError` is replaced by `TimeoutException`; any other
transport exception propagates unchanged; a response is returned as-is
when its status is in [200, 299] and otherwise handed to
`_handle_error`, whose exception is raised. -/
def make_request_issue (transport : TransportOutcome) (st : ClientState) :
    List Event × Except PyErr HttpResponse × ClientState :=
  match transport with
  | TransportOutcome.connectionError _ =>
    ([Event.httpCall],
     Except.error (PyErr.timeoutException "Timed out while making request"), st)
  | TransportOutcome.otherException name =>
    ([Event.httpCall], Except.error (PyErr.externalError name), st)
  | TransportOutcome.response resp =>
    if 200 ≤ resp.status_code ∧ resp.status_code ≤ 299 then
      ([Event.httpCall], Except.ok resp, st)
    else
      ([Event.httpCall], Except.error (handle_error resp), st)

/-- `ToDoableClient.make_request`: when the reauthentication guard
holds, `update_token` runs first and its exception, if any, propagates
before any HTTP call; otherwise, and after a successful
reauthentication, the call is issued. `now` is `datetime.utcnow()`,
`authResp` the outcome of the authenticate POST should reauthentication
happen, `transport` the outcome of the actual call. The header and data
pass-through arguments have no observable effect on the modelled
behaviour and are omitted. -/
def make_request (parse : String → PyDateTime) (now : Int)
    (authResp : HttpResponse) (transport : TransportOutcome)
    (st : ClientState) : List Event × Except PyErr HttpResponse × ClientState :=
  if needs_reauth st now then
    match update_token parse authResp st with
    | (Except.error e, st') => ([Event.reauth], Except.error e, st')
    | (Except.ok _, st') =>
      (Event.reauth :: (make_request_issue transport st').1,
       (make_request_issue transport st').2)
  else
    make_request_issue transport st

/-- The URL `"%s/%s/%s" % (self.BASE_URL, 'lists', list_id)` built by
`get_list`. -/
def get_list_url (list_id : String) : String :=
  BASE_URL ++ "/" ++ "lists" ++ "/" ++ list_id

/-- The two output modes of `get_list`, selected by the `raw` flag. -/
inductive ListResult : Type where
  | raw : JDict → ListResult
  | parsed : TodoList → ListResult

/-- `ToDoableClient.get_list`: performs the GET through `make_request`,
decodes the JSON body, merges the requested `list_id` into it with
`serialized.update({'id': list_id})`, and returns either the merged
dict (`raw`) or `List.from_dict` of it. -/
def get_list (parse : String → PyDateTime) (now : Int)
    (authResp : HttpResponse) (transport : TransportOutcome)
    (st : ClientState) (list_id : String) (raw : Bool) :
    List Event × Except PyErr ListResult × ClientState :=
  match make_request parse now authResp transport st with
  | (evs, Except.error e, st') => (evs, Except.error e, st')
  | (evs, Except.ok resp, st') =>
    match respJson resp with
    | Except.error e => (evs, Except.error e, st')
    | Except.ok body =>
      let serialized := AList.update body "id" (JVal.vStr list_id)
      if raw then (evs, Except.ok (ListResult.raw serialized), st')
      else
        match TodoList.from_dict parse serialized with
        | Except.error e => (evs, Except.error e, st')
        | Except.ok l => (evs, Except.ok (ListResult.parsed l), st')

/-! ## Claim-side definitions

Definitions in this block follow the wording of the specification, for
comparison against the definitions above, which are translated from the
source. -/

/-- The status-code-to-error-kind mapping as the spec words it: 401
gives AuthenticationError, 400 or 422 InvalidRequest, 404 NotFound, 429
RateLimited, 500-599 InternalServer, any other non-2xx the generic
kind. -/
def claimedStatusKind (c : Nat) : ErrKind :=
  if c = 401 then ErrKind.authentication
  else if c = 400 ∨ c = 422 then ErrKind.invalidRequest
  else if c = 404 then ErrKind.notFound
  else if c = 429 then ErrKind.rateLimited
  else if 500 ≤ c ∧ c ≤ 599 then ErrKind.internalServer
  else ErrKind.generic

/-- The staleness condition as the claim words it: the token is absent
(falsy), or an expiry is set and the current time is at-or-past it. -/
def claimedStale (st : ClientState) (now : Int) : Prop :=
  st.token.truthy = false ∨ ∃ e, st.token_expiry = some e ∧ now ≥ e.naive

/-! ## Concrete fixtures used by the witness theorems -/

/-- A concrete stand-in for the uninterpreted `dateutil.parser.parse`
parameter, used to instantiate theorems at concrete inputs. It returns
a timezone-aware value so that the timezone-stripping behaviour is
visible. -/
def witnessParse : String → PyDateTime :=
  fun s => { naive := Int.ofNat s.length, tz := some 0 }

/-- A concrete 200 response with an empty JSON object body. -/
def witnessResp : HttpResponse :=
  { status_code := 200, text := "", jsonBody := some [] }

/-- A client holding a fresh token and no expiry. -/
def freshClient : ClientState :=
  { token := JVal.vStr "tok", token_expiry := none,
    username := none, password := none }

/-- A client with no token but with stored credentials. -/
def staleClient : ClientState :=
  { token := JVal.vNull, token_expiry := none,
    username := some "u", password := some "p" }

/-- A concrete authenticate response carrying a token and expiry. -/
def tokenAuthResp : HttpResponse :=
  { status_code := 200, text := "",
    jsonBody := some [("token", JVal.vStr "t2"),
                      ("expires_at", JVal.vStr "2019-03-16T16:28:48.550Z")] }

/-- A concrete complete ListItem payload. -/
def itemDict : JDict :=
  [("name", JVal.vStr "item"), ("id", JVal.vStr "42"),
   ("src", JVal.vStr "http://todoable.teachable.tech/api/lists/1/items/42"),
   ("finished_at", JVal.vStr "2019-03-16T16:28:48.550Z")]

/-- A concrete List payload with one item. -/
def listDict : JDict :=
  [("name", JVal.vStr "urgent things"), ("id", JVal.vStr "7"),
   ("items", JVal.vArr [itemDict])]

/-- A concrete failed authenticate response. -/
def badAuthResp : HttpResponse :=
  { status_code := 401, text := "", jsonBody := none }

/-- The ListItem that `itemDict` parses to under `witnessParse`. -/
def itemFixture : ListItem :=
  { name := JVal.vStr "item", id := some (JVal.vStr "42"),
    src := some (JVal.vStr "http://todoable.teachable.tech/api/lists/1/items/42"),
    finished_at := some ((witnessParse "2019-03-16T16:28:48.550Z").replaceTzNone) }

/-! ## Helper lemmas -/

theorem find_map_update {β : Type} (k : String) (v : β) :
    ∀ d : List (String × β), d.any (fun kv => kv.1 == k) = true →
    AList.find? (d.map (fun kv => if kv.1 == k then (kv.1, v) else kv)) k = some v := by
  intro d
  induction d with
  | nil => intro h; simp at h
  | cons kv rest ih =>
    intro h
    rw [List.map_cons]
    by_cases hk : kv.1 == k
    · rw [if_pos hk]
      show (if kv.1 == k then some v
            else AList.find? (rest.map fun kv => if kv.1 == k then (kv.1, v) else kv) k)
          = some v
      rw [if_pos hk]
    · rw [if_neg hk]
      show (if kv.1 == k then some kv.2
            else AList.find? (rest.map fun kv => if kv.1 == k then (kv.1, v) else kv) k)
          = some v
      rw [if_neg hk]
      apply ih
      simp only [List.any_cons, Bool.or_eq_true] at h
      rcases h with h | h
      · exact absurd h hk
      · exact h

theorem find_append_new {β : Type} (k : String) (v : β) :
    ∀ d : List (String × β), d.any (fun kv => kv.1 == k) = false →
    AList.find? (d ++ [(k, v)]) k = some v := by
  intro d
  induction d with
  | nil =>
    intro _
    show (if k == k then some v else AList.find? [] k) = some v
    rw [if_pos (beq_self_eq_true k)]
  | cons kv rest ih =>
    intro h
    simp only [List.any_cons, Bool.or_eq_false_iff] at h
    rw [List.cons_append]
    show (if kv.1 == k then some kv.2 else AList.find? (rest ++ [(k, v)]) k) = some v
    rw [if_neg (by simp [h.1]), ih h.2]

/-- After `d.update({k: v})`, looking up `k` yields `v`. -/
theorem find_update {β : Type} (d : List (String × β)) (k : String) (v : β) :
    AList.find? (AList.update d k v) k = some v := by
  unfold AList.update
  by_cases h : d.any (fun kv => kv.1 == k)
  · rw [if_pos h]; exact find_map_update k v d h
  · rw [if_neg h]; exact find_append_new k v d (Bool.eq_false_iff.mpr h)

/-- The exception chosen by `_handle_error` has exactly the kind the
spec assigns to the status code. -/
theorem handle_error_kind (resp : HttpResponse) :
    (handle_error resp).kind = claimedStatusKind resp.status_code := by
  unfold handle_error claimedStatusKind
  split_ifs <;> first | rfl | omega

/-- `_handle_error` always raises within the taxonomy. -/
theorem handle_error_inTaxonomy (resp : HttpResponse) :
    (handle_error resp).inTaxonomy = true := by
  unfold handle_error
  split_ifs <;> rfl

/-- The result of `make_request_issue` on a received response, as a
single conditional. -/
theorem make_request_issue_response (resp : HttpResponse) (st : ClientState) :
    (make_request_issue (TransportOutcome.response resp) st).2.1
      = if 200 ≤ resp.status_code ∧ resp.status_code ≤ 299
        then Except.ok resp else Except.error (handle_error resp) := by
  by_cases h2 : 200 ≤ resp.status_code ∧ resp.status_code ≤ 299
  · simp only [make_request_issue, if_pos h2]
  · simp only [make_request_issue, if_neg h2]

/-- When the trace of a `make_request` call contains the HTTP-call
event, the result of the call is the result of issuing the transport
call (from some post-reauthentication state). -/
theorem make_request_result_of_issued (parse : String → PyDateTime) (now : Int)
    (authResp : HttpResponse) (transport : TransportOutcome) (st : ClientState)
    (h : Event.httpCall ∈ (make_request parse now authResp transport st).1) :
    ∃ st', (make_request parse now authResp transport st).2.1
      = (make_request_issue transport st').2.1 := by
  unfold make_request at h ⊢
  by_cases hr : needs_reauth st now
  · rw [if_pos hr] at h ⊢
    rcases hu : update_token parse authResp st with ⟨res, st1⟩
    rw [hu] at h
    cases res with
    | error e => simp at h
    | ok u => exact ⟨st1, rfl⟩
  · rw [if_neg hr] at h ⊢
    exact ⟨st, rfl⟩

/-- Issuing the transport call always records exactly one HTTP-call
event and leaves the client state unchanged. -/
theorem make_request_issue_trace (transport : TransportOutcome) (st : ClientState) :
    (make_request_issue transport st).1 = [Event.httpCall] ∧
    (make_request_issue transport st).2.2 = st := by
  cases transport with
  | connectionError m => exact ⟨rfl, rfl⟩
  | otherException n => exact ⟨rfl, rfl⟩
  | response r =>
    by_cases h2 : 200 ≤ r.status_code ∧ r.status_code ≤ 299
    · simp [make_request_issue, if_pos h2]
    · simp [make_request_issue, if_neg h2]

/-! ## Claim theorems -/

/-- C1: for every HTTP response received by `make_request` (that is,
whenever the HTTP call is issued), a status code in [200, 299] makes
`make_request` return the response object unchanged with nothing
raised, while any other status code makes it raise the exception built
by `_handle_error`, so the caller never receives the response; the kind
of the raised exception is exactly the spec mapping: 401
AuthenticationError, 400 or 422 InvalidRequest, 404 NotFound, 429
RateLimited, 500-599 InternalServer, any other non-2xx the
generic/unknown kind. -/
theorem make_request_status_mapping (parse : String → PyDateTime) (now : Int)
    (authResp : HttpResponse) (st : ClientState) (resp : HttpResponse)
    (hissued : Event.httpCall ∈
      (make_request parse now authResp (TransportOutcome.response resp) st).1) :
    (200 ≤ resp.status_code ∧ resp.status_code ≤ 299 →
      (make_request parse now authResp (TransportOutcome.response resp) st).2.1
        = Except.ok resp) ∧
    (¬(200 ≤ resp.status_code ∧ resp.status_code ≤ 299) →
      (make_request parse now authResp (TransportOutcome.response resp) st).2.1
        = Except.error (handle_error resp) ∧
      (handle_error resp).kind = claimedStatusKind resp.status_code ∧
      (handle_error resp).inTaxonomy = true) := by
  obtain ⟨st1, hres⟩ := make_request_result_of_issued parse now authResp
    (TransportOutcome.response resp) st hissued
  rw [hres, make_request_issue_response]
  constructor
  · intro h2; rw [if_pos h2]
  · intro h2
    exact ⟨by rw [if_neg h2], handle_error_kind resp, handle_error_inTaxonomy resp⟩

/-- C1 witness: with a fresh token, a concrete 404 response is raised
as the `_handle_error` exception, whose kind is NotFound per the
claimed mapping. -/
theorem make_request_status_mapping_witness :
    (make_request witnessParse 0 witnessResp
       (TransportOutcome.response { status_code := 404, text := "nope", jsonBody := none })
       freshClient).2.1
      = Except.error (handle_error { status_code := 404, text := "nope", jsonBody := none }) ∧
    (handle_error { status_code := 404, text := "nope", jsonBody := none }).kind
      = claimedStatusKind 404 := by
  have h := (make_request_status_mapping witnessParse 0 witnessResp freshClient
    { status_code := 404, text := "nope", jsonBody := none } (by decide)).2 (by decide)
  exact ⟨h.1, h.2.1⟩

/-- C2: the reauthentication guard of `make_request` holds exactly when
the token is absent (falsy) or an expiry is set and the current time is
at-or-past it; when it holds, exactly one reauthentication is performed
before the HTTP call is issued (trace `[reauth, httpCall]`), and if
`update_token` raises, the exception propagates and no HTTP call is
issued (trace `[reauth]`); when it does not hold, no reauthentication
occurs (trace `[httpCall]`). -/
theorem make_request_reauth_discipline (parse : String → PyDateTime) (now : Int)
    (authResp : HttpResponse) (transport : TransportOutcome) (st : ClientState) :
    (needs_reauth st now = true ↔ claimedStale st now) ∧
    (needs_reauth st now = false →
      (make_request parse now authResp transport st).1 = [Event.httpCall]) ∧
    (needs_reauth st now = true →
      ((update_token parse authResp st).1 = Except.ok () →
        (make_request parse now authResp transport st).1
          = [Event.reauth, Event.httpCall]) ∧
      (∀ e, (update_token parse authResp st).1 = Except.error e →
        (make_request parse now authResp transport st).1 = [Event.reauth] ∧
        (make_request parse now authResp transport st).2.1 = Except.error e)) := by
  refine ⟨?_, ?_, ?_⟩
  · unfold needs_reauth claimedStale
    cases hte : st.token_expiry with
    | none => simp
    | some e => simp
  · intro hr
    unfold make_request
    rw [if_neg (by simp [hr])]
    exact (make_request_issue_trace transport st).1
  · intro hr
    unfold make_request
    rw [if_pos hr]
    rcases hu : update_token parse authResp st with ⟨res, st1⟩
    constructor
    · intro hok
      have hres : res = Except.ok () := hok
      subst hres
      show Event.reauth :: (make_request_issue transport st1).1
        = [Event.reauth, Event.httpCall]
      rw [(make_request_issue_trace transport st1).1]
    · intro e he
      have hres : res = Except.error e := he
      subst hres
      exact ⟨rfl, rfl⟩

/-- C2 witness: a client with no token but stored credentials
reauthenticates exactly once before the call; a client with a fresh
token does not reauthenticate. -/
theorem make_request_reauth_discipline_witness :
    (make_request witnessParse 0 tokenAuthResp
       (TransportOutcome.response witnessResp) staleClient).1
      = [Event.reauth, Event.httpCall] ∧
    (make_request witnessParse 0 tokenAuthResp
       (TransportOutcome.response witnessResp) freshClient).1
      = [Event.httpCall] := by
  refine ⟨((make_request_reauth_discipline witnessParse 0 tokenAuthResp
      (TransportOutcome.response witnessResp) staleClient).2.2 (by decide)).1 rfl,
    (make_request_reauth_discipline witnessParse 0 tokenAuthResp
      (TransportOutcome.response witnessResp) freshClient).2.1 (by decide)⟩

/-- C3: `ListItem.from_dict` requires the keys `name`, `id`, `src`,
`finished_at`; if `finished_at` is missing, or its value is a JSON
string or null and any of the other three keys is missing, it raises
`MalformedResponseException` naming the entity type and the offending
payload; if all four keys are present and `finished_at` holds a
non-empty string, the result carries `finished_at` equal to the parsed
timestamp with the timezone stripped after parsing (timezone-naive);
if the value of `finished_at` is empty or null, `finished_at` is
absent. -/
theorem listitem_from_dict_spec (parse : String → PyDateTime) (d : JDict) :
    (AList.find? d "finished_at" = none →
      ListItem.from_dict parse d
        = Except.error (PyErr.malformedResponseException "ListItem" d)) ∧
    (∀ fv, AList.find? d "finished_at" = some fv →
      (fv = JVal.vNull ∨ ∃ s, fv = JVal.vStr s) →
      (AList.find? d "name" = none ∨ AList.find? d "id" = none ∨
        AList.find? d "src" = none) →
      ListItem.from_dict parse d
        = Except.error (PyErr.malformedResponseException "ListItem" d)) ∧
    (∀ s nv iv sv, AList.find? d "finished_at" = some (JVal.vStr s) →
      (JVal.vStr s).truthy = true →
      AList.find? d "name" = some nv → AList.find? d "id" = some iv →
      AList.find? d "src" = some sv →
      ListItem.from_dict parse d
        = Except.ok { name := nv, id := some iv, src := some sv,
                      finished_at := some ((parse s).replaceTzNone) } ∧
      ((parse s).replaceTzNone).tz = none) ∧
    (∀ fv nv iv sv, AList.find? d "finished_at" = some fv → fv.truthy = false →
      AList.find? d "name" = some nv → AList.find? d "id" = some iv →
      AList.find? d "src" = some sv →
      ListItem.from_dict parse d
        = Except.ok { name := nv, id := some iv, src := some sv,
                      finished_at := none }) := by
  refine ⟨?_, ?_, ?_, ?_⟩
  · intro hfa
    unfold ListItem.from_dict ListItem.from_dict_body dGet
    rw [hfa]
    rfl
  · intro fv hfa hshape hmiss
    unfold ListItem.from_dict ListItem.from_dict_body dGet
    rw [hfa]
    dsimp only
    rcases hshape with hnull | ⟨s, hstr⟩
    · subst hnull
      cases hn : AList.find? d "name" with
      | none => rfl
      | some nv =>
        cases hi : AList.find? d "id" with
        | none => rfl
        | some iv =>
          cases hs2 : AList.find? d "src" with
          | none => rfl
          | some sv =>
            rcases hmiss with h | h | h
            · rw [h] at hn; cases hn
            · rw [h] at hi; cases hi
            · rw [h] at hs2; cases hs2
    · subst hstr
      by_cases hse : (JVal.vStr s).truthy = true
      · rw [if_pos hse]
        cases hn : AList.find? d "name" with
        | none => rfl
        | some nv =>
          cases hi : AList.find? d "id" with
          | none => rfl
          | some iv =>
            cases hs2 : AList.find? d "src" with
            | none => rfl
            | some sv =>
              rcases hmiss with h | h | h
              · rw [h] at hn; cases hn
              · rw [h] at hi; cases hi
              · rw [h] at hs2; cases hs2
      · rw [if_neg hse]
        cases hn : AList.find? d "name" with
        | none => rfl
        | some nv =>
          cases hi : AList.find? d "id" with
          | none => rfl
          | some iv =>
            cases hs2 : AList.find? d "src" with
            | none => rfl
            | some sv =>
              rcases hmiss with h | h | h
              · rw [h] at hn; cases hn
              · rw [h] at hi; cases hi
              · rw [h] at hs2; cases hs2
  · intro s nv iv sv hfa htr hn hi hs2
    refine ⟨?_, rfl⟩
    unfold ListItem.from_dict ListItem.from_dict_body dGet
    rw [hfa]
    dsimp only
    rw [if_pos htr, hn, hi, hs2]
    rfl
  · intro fv nv iv sv hfa hfalsy hn hi hs2
    unfold ListItem.from_dict ListItem.from_dict_body dGet
    rw [hfa]
    dsimp only
    rw [if_neg (by simp [hfalsy]), hn, hi, hs2]
    rfl

/-- C3 witness: a complete payload with a non-empty `finished_at`
parses to an item holding the timezone-stripped parse result, and the
empty payload raises `MalformedResponseException`. -/
theorem listitem_from_dict_spec_witness :
    (ListItem.from_dict witnessParse itemDict
      = Except.ok
          { name := JVal.vStr "item", id := some (JVal.vStr "42"),
            src := some (JVal.vStr "http://todoable.teachable.tech/api/lists/1/items/42"),
            finished_at := some ((witnessParse "2019-03-16T16:28:48.550Z").replaceTzNone) } ∧
      ((witnessParse "2019-03-16T16:28:48.550Z").replaceTzNone).tz = none) ∧
    ListItem.from_dict witnessParse []
      = Except.error (PyErr.malformedResponseException "ListItem" []) :=
  ⟨(listitem_from_dict_spec witnessParse itemDict).2.2.1
      "2019-03-16T16:28:48.550Z" (JVal.vStr "item") (JVal.vStr "42")
      (JVal.vStr "http://todoable.teachable.tech/api/lists/1/items/42")
      rfl rfl rfl rfl rfl,
   (listitem_from_dict_spec witnessParse []).1 rfl⟩

/-- C4 counterexample: a payload that contains the `items` key with an
empty sequence parses to a List whose `items` is the not-loaded state
(`none`), not the loaded-but-empty state (`some []`) the claim
requires: the code tests `dict_.get('items')` for truthiness, and an
empty list is falsy. -/
theorem todolist_empty_items_counterexample :
    TodoList.from_dict witnessParse
      [("name", JVal.vStr "n"), ("id", JVal.vStr "i"), ("items", JVal.vArr [])]
      = Except.ok
          { name := JVal.vStr "n", id := some (JVal.vStr "i"),
            items := none, src := none } ∧
    (none : Option (List ListItem)) ≠ some [] :=
  ⟨rfl, by simp⟩

/-- C4 amended: if the payload holds an `items` key with a truthy
(non-empty) sequence value, the resulting items are loaded and equal
the elementwise `ListItem.from_dict` of that sequence; an `items` key
holding an empty or null value is treated like a missing `items` key
and yields the not-loaded state; missing `name` or `id` raises
`MalformedResponseException`; a missing `src` defaults to absent (the
result carries `src` equal to the optional lookup of `src`). -/
theorem todolist_from_dict_amended (parse : String → PyDateTime) (d : JDict) :
    ((AList.find? d "items" = none ∨
        (∃ v, AList.find? d "items" = some v ∧ v.truthy = false)) →
      ∀ nv iv, AList.find? d "name" = some nv → AList.find? d "id" = some iv →
      TodoList.from_dict parse d
        = Except.ok { name := nv, id := some iv, items := none,
                      src := AList.find? d "src" }) ∧
    (∀ ds items nv iv, AList.find? d "items" = some (JVal.vArr ds) →
      (JVal.vArr ds).truthy = true →
      parseItems parse ds = Except.ok items →
      AList.find? d "name" = some nv → AList.find? d "id" = some iv →
      TodoList.from_dict parse d
        = Except.ok { name := nv, id := some iv, items := some items,
                      src := AList.find? d "src" }) ∧
    ((AList.find? d "items" = none ∨
        (∃ v, AList.find? d "items" = some v ∧ v.truthy = false) ∨
        (∃ ds items, AList.find? d "items" = some (JVal.vArr ds) ∧
          parseItems parse ds = Except.ok items)) →
      (AList.find? d "name" = none ∨ AList.find? d "id" = none) →
      TodoList.from_dict parse d
        = Except.error (PyErr.malformedResponseException "List" d)) := by
  refine ⟨?_, ?_, ?_⟩
  · intro hit nv iv hn hi
    rcases hit with hnone | ⟨v, hv, hfalsy⟩
    · unfold TodoList.from_dict TodoList.from_dict_body dGet
      rw [hnone]
      dsimp only
      rw [hn, hi]
      rfl
    · unfold TodoList.from_dict TodoList.from_dict_body dGet
      rw [hv]
      dsimp only
      rw [if_neg (by simp [hfalsy]), hn, hi]
      rfl
  · intro ds items nv iv harr htr hpi hn hi
    unfold TodoList.from_dict TodoList.from_dict_body dGet
    rw [harr]
    dsimp only
    rw [if_pos htr]
    rw [hpi, hn, hi]
    rfl
  · intro hit hmiss
    rcases hit with hnone | ⟨v, hv, hfalsy⟩ | ⟨ds, items, harr, hpi⟩
    · unfold TodoList.from_dict TodoList.from_dict_body dGet
      rw [hnone]
      dsimp only
      rcases hmiss with hm | hm
      · rw [hm]
        rfl
      · cases hn : AList.find? d "name" with
        | none => rfl
        | some nv => rw [hm]; rfl
    · unfold TodoList.from_dict TodoList.from_dict_body dGet
      rw [hv]
      dsimp only
      rw [if_neg (by simp [hfalsy])]
      rcases hmiss with hm | hm
      · rw [hm]
        rfl
      · cases hn : AList.find? d "name" with
        | none => rfl
        | some nv => rw [hm]; rfl
    · unfold TodoList.from_dict TodoList.from_dict_body dGet
      rw [harr]
      dsimp only
      by_cases htr : (JVal.vArr ds).truthy = true
      · rw [if_pos htr]
        rw [hpi]
        rcases hmiss with hm | hm
        · rw [hm]
          rfl
        · cases hn : AList.find? d "name" with
          | none => rfl
          | some nv => rw [hm]; rfl
      · rw [if_neg htr]
        rcases hmiss with hm | hm
        · rw [hm]
          rfl
        · cases hn : AList.find? d "name" with
          | none => rfl
          | some nv => rw [hm]; rfl

/-- C4 amended witness: a payload with a one-element `items` array
loads exactly that parsed item. -/
theorem todolist_from_dict_amended_witness :
    TodoList.from_dict witnessParse listDict
      = Except.ok
          { name := JVal.vStr "urgent things", id := some (JVal.vStr "7"),
            items := some [itemFixture], src := AList.find? listDict "src" } :=
  (todolist_from_dict_amended witnessParse listDict).2.1 [itemDict] [itemFixture]
    (JVal.vStr "urgent things") (JVal.vStr "7") rfl rfl rfl rfl rfl

/-- C5 counterexample: a transport exception that is not a
`requests.ConnectionError` — such as `requests.ReadTimeout`, raised for
a request that times out in flight — is not caught by `make_request`
and surfaces to the caller unchanged, outside the taxonomy, refuting
the claim that every failure surfaces as a taxonomy kind. -/
theorem make_request_nontaxonomy_counterexample :
    (make_request witnessParse 0 witnessResp
       (TransportOutcome.otherException "requests.exceptions.ReadTimeout")
       freshClient).2.1
      = Except.error (PyErr.externalError "requests.exceptions.ReadTimeout") ∧
    (PyErr.externalError "requests.exceptions.ReadTimeout").inTaxonomy = false :=
  ⟨rfl, rfl⟩

/-- C5 amended: whenever the HTTP call is issued, a transport-level
connection failure (`requests.ConnectionError`) before a response is
received is translated to the Timeout kind, and every received
response yields either the response itself or a taxonomy error; but a
transport exception other than a connection failure — for example an
in-flight read timeout — propagates to the caller unchanged, outside
the taxonomy. -/
theorem make_request_failure_modes (parse : String → PyDateTime) (now : Int)
    (authResp : HttpResponse) (st : ClientState) :
    (∀ m, Event.httpCall ∈
        (make_request parse now authResp (TransportOutcome.connectionError m) st).1 →
      (make_request parse now authResp (TransportOutcome.connectionError m) st).2.1
        = Except.error (PyErr.timeoutException "Timed out while making request") ∧
      (PyErr.timeoutException "Timed out while making request").inTaxonomy = true) ∧
    (∀ resp, Event.httpCall ∈
        (make_request parse now authResp (TransportOutcome.response resp) st).1 →
      (make_request parse now authResp (TransportOutcome.response resp) st).2.1
          = Except.ok resp ∨
        ∃ e, (make_request parse now authResp (TransportOutcome.response resp) st).2.1
            = Except.error e ∧ e.inTaxonomy = true) ∧
    (∀ n, Event.httpCall ∈
        (make_request parse now authResp (TransportOutcome.otherException n) st).1 →
      (make_request parse now authResp (TransportOutcome.otherException n) st).2.1
        = Except.error (PyErr.externalError n) ∧
      (PyErr.externalError n).inTaxonomy = false) := by
  refine ⟨?_, ?_, ?_⟩
  · intro m hissued
    obtain ⟨st1, hres⟩ := make_request_result_of_issued parse now authResp
      (TransportOutcome.connectionError m) st hissued
    exact ⟨by rw [hres]; rfl, rfl⟩
  · intro resp hissued
    obtain ⟨st1, hres⟩ := make_request_result_of_issued parse now authResp
      (TransportOutcome.response resp) st hissued
    rw [hres, make_request_issue_response]
    by_cases h2 : 200 ≤ resp.status_code ∧ resp.status_code ≤ 299
    · exact Or.inl (by rw [if_pos h2])
    · exact Or.inr ⟨handle_error resp, by rw [if_neg h2], handle_error_inTaxonomy resp⟩
  · intro n hissued
    obtain ⟨st1, hres⟩ := make_request_result_of_issued parse now authResp
      (TransportOutcome.otherException n) st hissued
    exact ⟨by rw [hres]; rfl, rfl⟩

/-- C5 amended witness: with a fresh token, a connection failure is
raised as TimeoutException, inside the taxonomy. -/
theorem make_request_failure_modes_witness :
    (make_request witnessParse 0 witnessResp
       (TransportOutcome.connectionError "connection refused") freshClient).2.1
      = Except.error (PyErr.timeoutException "Timed out while making request") :=
  ((make_request_failure_modes witnessParse 0 witnessResp freshClient).1
    "connection refused" (by decide)).1

/-- C6: `update_token` raises `AuthenticationError` when the stored
username/password credentials are not both present (truthy), leaving
the state unchanged; when credentials exist and the token fetch
returns a pair, it overwrites the stored token and expiry with that
pair. -/
theorem update_token_spec (parse : String → PyDateTime) (authResp : HttpResponse)
    (st : ClientState) :
    ((optStrTruthy st.username && optStrTruthy st.password) = false →
      update_token parse authResp st
        = (Except.error (PyErr.authenticationError
            "Unable to update token without username and password"), st)) ∧
    (∀ t expiry, (optStrTruthy st.username && optStrTruthy st.password) = true →
      get_token parse authResp = Except.ok (t, expiry) →
      update_token parse authResp st
        = (Except.ok (), { st with token := t, token_expiry := some expiry })) := by
  constructor
  · intro hcred
    unfold update_token
    rw [if_pos (by rw [hcred]; rfl)]
  · intro t expiry hcred hfetch
    unfold update_token
    rw [if_neg (by rw [hcred]; exact (by decide : ¬(!true : Bool) = true)), hfetch]

/-- C6 witness: a credentialed client with a successful fetch has its
token and expiry overwritten by the fetched pair. -/
theorem update_token_spec_witness :
    update_token witnessParse tokenAuthResp staleClient
      = (Except.ok (),
         { staleClient with
           token := JVal.vStr "t2",
           token_expiry := some ((witnessParse "2019-03-16T16:28:48.550Z").replaceTzNone) }) :=
  (update_token_spec witnessParse tokenAuthResp staleClient).2 (JVal.vStr "t2")
    ((witnessParse "2019-03-16T16:28:48.550Z").replaceTzNone) rfl rfl

/-- C7: `get_token` targets `base_url` plus `/authenticate`, needs no
client instance state (it is a function of its inputs only); a 401
response raises `AuthenticationError`; otherwise, when the JSON body
decodes and holds `token` and a string `expires_at`, it returns the
pair of the `token` value and the parsed `expires_at` normalized to a
timezone-naive timestamp. -/
theorem get_token_spec (parse : String → PyDateTime) (resp : HttpResponse) :
    authenticate_url = "http://todoable.teachable.tech/api/authenticate" ∧
    (resp.status_code = 401 →
      get_token parse resp = Except.error (PyErr.authenticationError
        "Unable to authenticate with given username/pw")) ∧
    (∀ body t s, resp.status_code ≠ 401 →
      resp.jsonBody = some body →
      AList.find? body "token" = some t →
      AList.find? body "expires_at" = some (JVal.vStr s) →
      get_token parse resp = Except.ok (t, (parse s).replaceTzNone) ∧
      ((parse s).replaceTzNone).tz = none) := by
  refine ⟨rfl, ?_, ?_⟩
  · intro h401
    unfold get_token
    rw [if_pos h401]
  · intro body t s h401 hbody htok hexp
    refine ⟨?_, rfl⟩
    unfold get_token respJson dGet
    rw [if_neg h401, hbody]
    dsimp only
    rw [htok, hexp]

/-- C7 witness: a 401 authenticate response raises
AuthenticationError; a 200 response with token and expires_at returns
the token and the timezone-stripped parsed expiry. -/
theorem get_token_spec_witness :
    get_token witnessParse badAuthResp
      = Except.error (PyErr.authenticationError
          "Unable to authenticate with given username/pw") ∧
    get_token witnessParse tokenAuthResp
      = Except.ok (JVal.vStr "t2",
          (witnessParse "2019-03-16T16:28:48.550Z").replaceTzNone) :=
  ⟨(get_token_spec witnessParse badAuthResp).2.1 rfl,
   ((get_token_spec witnessParse tokenAuthResp).2.2
      [("token", JVal.vStr "t2"),
       ("expires_at", JVal.vStr "2019-03-16T16:28:48.550Z")]
      (JVal.vStr "t2") "2019-03-16T16:28:48.550Z"
      (by decide) rfl rfl rfl).1⟩

/-- C10: `update_token` is atomic on failure: when credentials exist
but the token fetch raises any exception, that exception propagates
and the stored token and expiry are left unchanged. -/
theorem update_token_atomic (parse : String → PyDateTime) (authResp : HttpResponse)
    (st : ClientState) (e : PyErr)
    (hu : optStrTruthy st.username = true) (hp : optStrTruthy st.password = true)
    (hfail : get_token parse authResp = Except.error e) :
    update_token parse authResp st = (Except.error e, st) := by
  unfold update_token
  rw [if_neg (by rw [hu, hp]; exact (by decide : ¬(!(true && true) : Bool) = true)), hfail]

/-- C10 witness: a failing fetch (401) propagates and leaves the
credentialed client state exactly as it was. -/
theorem update_token_atomic_witness :
    update_token witnessParse badAuthResp staleClient
      = (Except.error (PyErr.authenticationError
          "Unable to authenticate with given username/pw"), staleClient) :=
  update_token_atomic witnessParse badAuthResp staleClient
    (PyErr.authenticationError "Unable to authenticate with given username/pw")
    rfl rfl rfl

/-- When the payload stores `v` under `id` and `List.from_dict`
succeeds, the result carries `id = some v`. -/
theorem todolist_from_dict_ok_id (parse : String → PyDateTime) (d : JDict)
    (l : TodoList) (v : JVal) (hid : AList.find? d "id" = some v)
    (h : TodoList.from_dict parse d = Except.ok l) :
    l.id = some v := by
  unfold TodoList.from_dict at h
  rcases hb : TodoList.from_dict_body parse d with e | l0
  · rw [hb] at h
    cases e <;> simp [handle_malformed_response] at h
  · rw [hb] at h
    simp only [handle_malformed_response] at h
    have hl : l0 = l := by
      have h2 : Except.ok (ε := PyErr) l0 = Except.ok l := h
      injection h2
    subst hl
    unfold TodoList.from_dict_body dGet at hb
    rcases hits : AList.find? d "items" with _ | v2
    · rw [hits] at hb
      dsimp only at hb
      cases hn : AList.find? d "name" with
      | none => rw [hn] at hb; simp at hb
      | some nv =>
        rw [hn, hid] at hb
        dsimp only at hb
        injection hb with h2
        rw [← h2]
    · rw [hits] at hb
      dsimp only at hb
      by_cases htr : v2.truthy = true
      · rw [if_pos htr] at hb
        cases v2 with
        | vNull => simp [JVal.truthy] at htr
        | vStr s =>
          dsimp only at hb
          simp at hb
        | vArr ds =>
          dsimp only at hb
          rcases hpi : parseItems parse ds with e2 | items
          · rw [hpi] at hb
            simp at hb
          · rw [hpi] at hb
            dsimp only at hb
            cases hn : AList.find? d "name" with
            | none => rw [hn] at hb; simp at hb
            | some nv =>
              rw [hn, hid] at hb
              dsimp only at hb
              injection hb with h2
              rw [← h2]
      · rw [if_neg htr] at hb
        cases hn : AList.find? d "name" with
        | none => rw [hn] at hb; simp at hb
        | some nv =>
          rw [hn, hid] at hb
          dsimp only at hb
          injection hb with h2
          rw [← h2]

/-- C8: `get_list` merges the requested `list_id` into the decoded
response body before parsing, so whenever it succeeds the returned
value carries the requested id — in raw mode the returned dict stores
the requested id under `id`, and in parsed mode the returned List has
`id` equal to the requested id — even when the server body omits the
`id` key. -/
theorem get_list_id_merge (parse : String → PyDateTime) (now : Int)
    (authResp : HttpResponse) (transport : TransportOutcome) (st : ClientState)
    (list_id : String) :
    (∀ d, (get_list parse now authResp transport st list_id true).2.1
        = Except.ok (ListResult.raw d) →
      AList.find? d "id" = some (JVal.vStr list_id)) ∧
    (∀ l, (get_list parse now authResp transport st list_id false).2.1
        = Except.ok (ListResult.parsed l) →
      l.id = some (JVal.vStr list_id)) := by
  constructor
  · intro d hd
    unfold get_list at hd
    rcases hmr : make_request parse now authResp transport st with ⟨evs, res, st1⟩
    rw [hmr] at hd
    cases res with
    | error e => simp at hd
    | ok resp =>
      dsimp only at hd
      rcases hjs : resp.jsonBody with _ | body
      · rw [respJson, hjs] at hd
        simp at hd
      · rw [respJson, hjs] at hd
        dsimp only at hd
        rw [if_pos rfl] at hd
        have h2 : ListResult.raw (AList.update body "id" (JVal.vStr list_id))
            = ListResult.raw d := by
          have h3 : Except.ok (ε := PyErr)
              (ListResult.raw (AList.update body "id" (JVal.vStr list_id)))
              = Except.ok (ListResult.raw d) := hd
          injection h3
        injection h2 with h4
        rw [← h4]
        exact find_update body "id" (JVal.vStr list_id)
  · intro l hl
    unfold get_list at hl
    rcases hmr : make_request parse now authResp transport st with ⟨evs, res, st1⟩
    rw [hmr] at hl
    cases res with
    | error e => simp at hl
    | ok resp =>
      dsimp only at hl
      rcases hjs : resp.jsonBody with _ | body
      · rw [respJson, hjs] at hl
        simp at hl
      · rw [respJson, hjs] at hl
        dsimp only at hl
        rw [if_neg (by simp)] at hl
        rcases hfd : TodoList.from_dict parse (AList.update body "id" (JVal.vStr list_id))
          with e | l0
        · rw [hfd] at hl
          simp at hl
        · rw [hfd] at hl
          dsimp only at hl
          have h2 : l0 = l := by
            have h3 : Except.ok (ε := PyErr) (ListResult.parsed l0)
                = Except.ok (ListResult.parsed l) := hl
            injection h3 with h4
            injection h4
          subst h2
          exact todolist_from_dict_ok_id parse _ l0 (JVal.vStr list_id)
            (find_update body "id" (JVal.vStr list_id)) hfd

/-- C8 witness: a body without an `id` key, fetched as list "L1",
yields a raw dict storing the requested id under `id`. -/
theorem get_list_id_merge_witness :
    AList.find? [("name", JVal.vStr "n"), ("id", JVal.vStr "L1")] "id"
      = some (JVal.vStr "L1") :=
  (get_list_id_merge witnessParse 0 witnessResp
    (TransportOutcome.response
      { status_code := 200, text := "", jsonBody := some [("name", JVal.vStr "n")] })
    freshClient "L1").1
    [("name", JVal.vStr "n"), ("id", JVal.vStr "L1")] rfl

/-- C9: the default header dict is shared class-level state updated in
place by every construction: after one construction the shared dict
holds that client Authorization header, and after a second
construction (threading the same shared dict) it holds Accept,
Content-Type and the second client Authorization header — so the
first client, which reads the same shared dict, observes the second
client token. -/
theorem shared_headers_spec (t1 t2 : JVal) (e1 e2 : Option PyDateTime)
    (u1 p1 u2 p2 : Option String) :
    (AList.find? (ToDoableClient.init DEFAULT_HEADERS t1 e1 u1 p1).2 "Authorization"
      = some ("Token token=" ++ t1.pyStr)) ∧
    (AList.find? (ToDoableClient.init
        (ToDoableClient.init DEFAULT_HEADERS t1 e1 u1 p1).2 t2 e2 u2 p2).2 "Accept"
      = some "application/json") ∧
    (AList.find? (ToDoableClient.init
        (ToDoableClient.init DEFAULT_HEADERS t1 e1 u1 p1).2 t2 e2 u2 p2).2 "Content-Type"
      = some "application/json") ∧
    (AList.find? (ToDoableClient.init
        (ToDoableClient.init DEFAULT_HEADERS t1 e1 u1 p1).2 t2 e2 u2 p2).2 "Authorization"
      = some ("Token token=" ++ t2.pyStr)) :=
  ⟨rfl, rfl, rfl, rfl⟩

end Todoable
